import Mathlib

/-!
Verification of the client-side ledger-state reconciliation engine of the
Cerberus repository: the credential resolver and flag predicates
(`src/cerberus/src/lib/xrpl/credentials.ts`), the connection manager
(`src/cerberus/src/lib/xrpl/client.ts`), the compliance-funnel state machine
(`useUserStatus`), and the session-identity store (`WalletContext`).

The TypeScript is shallowly embedded: `unknown` values become `JSValue`,
remote query results become explicit parameters (the objects each account
owns, the trust lines returned, the clock), and the asynchronous pieces
become explicit atomic segments interleaved by a scheduler, reflecting the
JavaScript run-to-completion model in which code between two `await`
boundaries executes atomically.
-/

namespace Fintech

/-- Model of a JavaScript runtime value, used for fields the source types as
`unknown`.  Numbers are modelled as integers (ledger flag words are 32-bit
integers; fractional values play no role in the embedded code paths). -/
inductive JSValue where
  | undefined
  | null
  | bool (b : Bool)
  | num (n : Int)
  | str (s : String)
  | obj (fields : List (String × JSValue))
  | arr (elems : List JSValue)

/-- Property lookup `r[key]` on a JavaScript object: the value of the first
binding of `key`, or `undefined` when the key is absent. -/
def getField : List (String × JSValue) → String → JSValue
  | [], _ => .undefined
  | (k, v) :: rest, key => if k = key then v else getField rest key

/-! ### credentials.ts -/

/-- The constant `LSF_ACCEPTED = 0x00010000` (credentials.ts line 29). -/
def LSF_ACCEPTED : Int := 0x00010000

/-- Embedding of `isCredentialAccepted(flags: unknown)` (credentials.ts lines 31-33):
`typeof flags === "number" && (flags & LSF_ACCEPTED) !== 0`. -/
def isCredentialAccepted (flags : JSValue) : Bool :=
  match flags with
  | .num n => !(Int.land n LSF_ACCEPTED == 0)
  | _ => false

/-- The `CredentialObject` record type (credentials.ts lines 35-43).
`Flags` is kept as an arbitrary runtime value, exactly as in the source. -/
structure CredentialObject where
  index : String
  Subject : String
  Issuer : String
  CredentialType : String
  Flags : JSValue
  Expiration : Option Int

/-- Embedding of `parseCredentialObject(o: unknown)` (credentials.ts lines 45-76):
structural validation of a raw ledger entry.  `LedgerEntryType` must equal
`"Credential"`; `index`, `Subject`, `Issuer`, `CredentialType` must be
strings; `Expiration` is kept only when numeric; `Flags` is passed through
without any validation. -/
def parseCredentialObject (o : JSValue) : Option CredentialObject :=
  match o with
  | .obj r =>
    match getField r "LedgerEntryType" with
    | .str t =>
      if t = "Credential" then
        match getField r "index", getField r "Subject",
            getField r "Issuer", getField r "CredentialType" with
        | .str index, .str subject, .str issuer, .str credType =>
          some { index := index, Subject := subject, Issuer := issuer,
                 CredentialType := credType, Flags := getField r "Flags",
                 Expiration :=
                   match getField r "Expiration" with
                   | .num e => some e
                   | _ => none }
        | _, _, _, _ => none
      else none
    | _ => none
  | _ => none

/-- Embedding of `isNonExpiredCredential` (credentials.ts lines 78-82), with the ambient
clock `currentRippleTime()` made an explicit parameter `now`:
no `Expiration` field means valid forever, otherwise `Expiration > now`. -/
def isNonExpiredCredential (now : Int) (credential : CredentialObject) : Bool :=
  match credential.Expiration with
  | none => true
  | some e => decide (e > now)

/-- The options record taken by `findCredential` (credentials.ts line 86). -/
structure CredentialQuery where
  ownerAddress : String
  issuerAddress : String
  credentialTypeHex : String

/-- The filter applied by `findCredential` to the parsed objects of either
account (credentials.ts lines 104-110 and 126-132): issuer, subject and
type must match exactly and the object must not be expired. -/
def credentialMatches (opts : CredentialQuery) (now : Int)
    (c : CredentialObject) : Bool :=
  c.Issuer == opts.issuerAddress && c.Subject == opts.ownerAddress &&
    c.CredentialType == opts.credentialTypeHex && isNonExpiredCredential now c

/-- One `account_objects` query plus the map/filter/find pipeline of
`findCredential`: parse every raw object owned by `account`, drop the
failures, and return the first parsed object passing `credentialMatches`.
`objectsOf` is the validated-ledger snapshot consulted by the query. -/
def searchCredentials (objectsOf : String → List JSValue)
    (opts : CredentialQuery) (now : Int) (account : String) :
    Option CredentialObject :=
  ((objectsOf account).filterMap parseCredentialObject).find?
    (credentialMatches opts now)

/-- Embedding of `findCredential` (credentials.ts lines 84-134): search the subject's
owned objects first (post-acceptance location); only when that yields
nothing, search the issuer's owned objects (pre-acceptance location). -/
def findCredential (objectsOf : String → List JSValue)
    (opts : CredentialQuery) (now : Int) : Option CredentialObject :=
  match searchCredentials objectsOf opts now opts.ownerAddress with
  | some c => some c
  | none => searchCredentials objectsOf opts now opts.issuerAddress

/-! ### client.ts — the connection manager -/

/-- The module-level state of `client.ts`: whether the shared client is
connected (`client.isConnected()`), the `connectInFlight` promise (identified
by the ordinal of the attempt it belongs to), and how many underlying
`client.connect()` calls have been started so far. -/
structure MgrState where
  connected : Bool
  inFlight : Option Nat
  attemptsStarted : Nat
deriving DecidableEq, Repr

/-- What a caller of `ensureXrplConnected` ends up awaiting: nothing (the
early return when already connected), or the shared connect attempt with the
given ordinal. -/
inductive AwaitTarget where
  | alreadyConnected
  | attempt (id : Nat)
deriving DecidableEq, Repr

/-- The synchronous prologue of `ensureXrplConnected` (client.ts lines
220-235), which runs atomically up to the `await connectInFlight`
suspension: return immediately if connected; otherwise, if no attempt is in
flight, start one (calling `client.connect()` exactly once) and record it;
finally await the recorded attempt. -/
def ensurePrologue (st : MgrState) : MgrState × AwaitTarget :=
  if st.connected then (st, .alreadyConnected)
  else
    match st.inFlight with
    | some id => (st, .attempt id)
    | none =>
      ({ st with inFlight := some st.attemptsStarted,
                 attemptsStarted := st.attemptsStarted + 1 },
       .attempt st.attemptsStarted)

/-- Running `n` concurrent callers of `ensureXrplConnected`: on the single
JavaScript thread their synchronous prologues run one after another, each
observing the state left by the previous one.  Returns the final manager
state and, per caller, what that caller awaits. -/
def runCallers : Nat → MgrState → MgrState × List AwaitTarget
  | 0, st => (st, [])
  | n + 1, st =>
    let p := ensurePrologue st
    let r := runCallers n p.1
    (r.1, p.2 :: r.2)

/-- Settlement of the in-flight attempt (the `.then`/`.catch` handlers,
client.ts lines 226-232): both clear `connectInFlight`; a successful attempt
additionally leaves the client connected, a failed one does not (and the
`.catch` rethrows, propagating the failure to every awaiter). -/
def completeAttempt (success : Bool) (st : MgrState) : MgrState :=
  if success then { st with connected := true, inFlight := none }
  else { st with inFlight := none }

/-- The outcome delivered to one waiter once the attempts it may await have
settled: a caller that returned early succeeds; a caller awaiting attempt
`id` receives that attempt's outcome (a rejected promise rejects every
awaiter with the same failure). -/
def waiterOutcome (attemptResult : Nat → Bool) : AwaitTarget → Bool
  | .alreadyConnected => true
  | .attempt id => attemptResult id

/-! ### part_002 — the compliance funnel -/

/-- The `ComplianceFunnelState` union (part_002 lines 14-29). -/
inductive ComplianceFunnelState where
  | disconnected
  | loading
  | connected_no_credential (issuerAddress : String)
  | credential_unaccepted (issuerAddress credentialId : String)
  | credential_accepted_no_trustline (issuerAddress credentialId : String)
  | trustline_pending (issuerAddress credentialId : String)
  | authorized (issuerAddress credentialId : String)
deriving DecidableEq, Repr

/-- One entry of an `account_lines` response, restricted to the fields the
funnel reads: the counterparty account, the currency code, and the optional
`peer_authorized` flag. -/
structure TrustLine where
  account : String
  currency : String
  peer_authorized : Option Bool
deriving DecidableEq, Repr

/-- The trust-line filter of part_002 lines 122-124:
`l.account === issuer && l.currency === cerbCurrencyCode()`. -/
def trustlineMatches (issuer cerbCode : String) (l : TrustLine) : Bool :=
  l.account == issuer && l.currency == cerbCode

/-- The pure state derivation performed by a successful `refresh` once the
credential lookup result and (when needed) the trust-line lookup result are
available (part_002 lines 101-143): no credential means
`connected_no_credential`; an unaccepted credential means
`credential_unaccepted`; otherwise the trust line from the wallet to the
issuer for the CERB code decides between `credential_accepted_no_trustline`
(absent), `authorized` (`peer_authorized === true`) and `trustline_pending`
(anything else). -/
def deriveFunnel (issuer cerbCode : String)
    (credential : Option CredentialObject) (lines : List TrustLine) :
    ComplianceFunnelState :=
  match credential with
  | none => .connected_no_credential issuer
  | some credential =>
    if !isCredentialAccepted credential.Flags then
      .credential_unaccepted issuer credential.index
    else
      match lines.find? (trustlineMatches issuer cerbCode) with
      | none => .credential_accepted_no_trustline issuer credential.index
      | some line =>
        if line.peer_authorized == some true then
          .authorized issuer credential.index
        else
          .trustline_pending issuer credential.index

/-- The full state produced by one successful refresh evaluation, including
the guard of part_002 lines 76-81: with no active wallet address the state
is `disconnected`; with one, the state is derived from the lookup results. -/
def refreshSuccess (walletAddress : Option String) (issuer cerbCode : String)
    (credential : Option CredentialObject) (lines : List TrustLine) :
    ComplianceFunnelState :=
  match walletAddress with
  | none => .disconnected
  | some _ => deriveFunnel issuer cerbCode credential lines

/-- The React state owned by `useUserStatus` (part_002 lines 67-71). -/
structure HookState where
  state : ComplianceFunnelState
  issuerAddress : Option String
  isRefreshing : Bool
  lastUpdatedAt : Option Int
  error : Option String
deriving DecidableEq, Repr

/-- Everything one in-flight refresh evaluation will observe from the
outside world: the issuer address fetched from the API, the CERB currency
code, the snapshots returned by its credential and trust-line queries, and
the `Date.now()` value at its completion.  Two overlapping evaluations may
observe different snapshots. -/
structure RefreshEnv where
  issuer : String
  cerbCode : String
  credential : Option CredentialObject
  lines : List TrustLine
  completedAt : Int

/-- First atomic segment of `refresh` (part_002 lines 83-90): everything up
to the first `await` runs synchronously — set `isRefreshing`, clear the
error, and switch to `loading` only when the previous state was
`disconnected`. -/
def refreshSeg1 (st : HookState) : HookState :=
  { st with isRefreshing := true, error := none,
            state := if st.state = .disconnected then .loading else st.state }

/-- Second atomic segment (part_002 lines 92-93): after the connect and
issuer-fetch promises resolve, record the fetched issuer address and start
the credential query. -/
def refreshSeg2 (env : RefreshEnv) (st : HookState) : HookState :=
  { st with issuerAddress := some env.issuer }

/-- Final atomic segment (part_002 lines 101-149): once the remaining query
promises resolve, derive the funnel state from the snapshots this evaluation
observed, stamp `lastUpdatedAt`, and clear `isRefreshing` (the `finally`
block runs in the same synchronous stretch). -/
def refreshSeg3 (env : RefreshEnv) (st : HookState) : HookState :=
  { st with state := deriveFunnel env.issuer env.cerbCode env.credential env.lines,
            lastUpdatedAt := some env.completedAt,
            isRefreshing := false }

/-- One refresh evaluation as its list of atomic segments, in program
order.  Nothing in the source inspects `isRefreshing` (or any other guard)
before proceeding, so every invocation contributes all three segments. -/
def refreshSegs (env : RefreshEnv) : List (HookState → HookState) :=
  [refreshSeg1, refreshSeg2 env, refreshSeg3 env]

/-- Cooperative scheduler: `execs` holds the pending segments of each
started evaluation; the schedule names, step by step, which evaluation's
next segment runs.  Returns the pending segments and the hook state after
the schedule.  A schedule entry naming a finished (or unknown) evaluation
does nothing. -/
def runSegs (execs : List (List (HookState → HookState))) :
    List Nat → HookState → List (List (HookState → HookState)) × HookState
  | [], st => (execs, st)
  | i :: rest, st =>
    match execs[i]? with
    | some (seg :: more) => runSegs (execs.set i (more : List _)) rest (seg st)
    | _ => runSegs execs rest st

/-- The state left by a refresh evaluation whose awaited query failed
(part_002 lines 144-149): the prologue ran, `issuerAddress` was recorded
when the failure happened after the issuer fetch (`issuerFetched`), and the
`catch` block records the error message while leaving `state` untouched;
`finally` clears `isRefreshing`. -/
def refreshOnFailure (init : HookState) (issuerFetched : Option String)
    (errMsg : String) : HookState :=
  let afterPrologue := refreshSeg1 init
  let afterIssuer :=
    match issuerFetched with
    | some issuer => { afterPrologue with issuerAddress := some issuer }
    | none => afterPrologue
  { afterIssuer with error := some errMsg, isRefreshing := false }

/-! ### part_001 — the session identity store -/

/-- The origin-wide `localStorage` entries touched by part_001, one field
per fixed key: the saved wallet seed (`cerberus.xrpl.seed`), the
recent-address list (`cerberus.demo.recent-addresses`, stored as a JSON
array of strings), and the two demo-user slots
(`cerberus.demo.user1.address`, `cerberus.demo.user2.address`).
`none` models an absent key. -/
structure SharedStorage where
  localSeed : Option String
  recentAddresses : Option (List String)
  demoUser1 : Option String
  demoUser2 : Option String
deriving DecidableEq, Repr

/-- One browsing context's view of storage: the shared `localStorage` plus
its own tab-scoped `sessionStorage` seed (`cerberus.xrpl.session-seed`). -/
structure ContextStorage where
  shared : SharedStorage
  sessionSeed : Option String
deriving DecidableEq, Repr

/-- JavaScript truthiness of a `localStorage.getItem` result: `null` and
the empty string are falsy. -/
def isFalsyStr : Option String → Bool
  | none => true
  | some s => s.isEmpty

/-- Embedding of `loadRecentAddressesFromLocalStorage` (part_001 lines 38-49): an absent
or non-array value yields `[]`; entries that are not non-empty strings are
dropped. -/
def loadRecentAddresses (st : SharedStorage) : List String :=
  match st.recentAddresses with
  | none => []
  | some l => l.filter (fun s => !s.isEmpty)

/-- The list transformation performed by `rememberRecentAddress` (part_001
lines 61-68) on the loaded list: ignore an empty address, keep the list
unchanged when the address is already at the front, otherwise move/insert
the address at the front, drop its other occurrences, and keep at most 5
entries. -/
def pushRecent (address : String) (existing : List String) : List String :=
  if address.isEmpty then existing
  else if existing.head? == some address then existing
  else (address :: existing.filter (· != address)).take 5

/-- Embedding of `rememberRecentAddress` (part_001 lines 61-68) as a storage update:
load, transform as `pushRecent`, save (the early returns perform no
write). -/
def rememberRecentAddress (address : String) (st : SharedStorage) :
    SharedStorage :=
  if address.isEmpty then st
  else
    let existing := loadRecentAddresses st
    let deduped := (address :: existing.filter (· != address)).take 5
    if existing.head? == some address then st
    else { st with recentAddresses := some deduped }

/-- Embedding of `rememberDemoUserAddress` (part_001 lines 115-137): an address already
held in either slot changes nothing; otherwise it fills slot 1 first, then
slot 2, and once both are occupied it shifts slot 2 into slot 1 and takes
slot 2. -/
def rememberDemoUserAddress (address : String) (st : SharedStorage) :
    SharedStorage :=
  if address.isEmpty then st
  else if st.demoUser1 == some address || st.demoUser2 == some address then st
  else if isFalsyStr st.demoUser1 then { st with demoUser1 := some address }
  else if isFalsyStr st.demoUser2 then { st with demoUser2 := some address }
  else { st with demoUser1 := st.demoUser2, demoUser2 := some address }

/-- Embedding of `disconnectWallet` (part_001 lines 246-254): when the departing wallet
has a truthy address, first run the two shared-scope bookkeeping writes
(`rememberRecentAddress`, then `rememberDemoUserAddress`); then clear only
this context's tab-scope seed. -/
def disconnectWallet (walletAddress : Option String) (ctx : ContextStorage) :
    ContextStorage :=
  let shared :=
    match walletAddress with
    | some a =>
      if a.isEmpty then ctx.shared
      else rememberDemoUserAddress a (rememberRecentAddress a ctx.shared)
    | none => ctx.shared
  { shared := shared, sessionSeed := none }

/-- Embedding of `loadSeedFromStorage` (part_001 lines 139-145): prefer the tab-scope
seed when truthy, otherwise fall back to the shared-scope saved seed.  This
is how a context resolves its active identity. -/
def loadSeedFromStorage (sessionSeed localSeed : Option String) :
    Option String :=
  match sessionSeed with
  | some s => if s.isEmpty then localSeed else some s
  | none => localSeed

/-- Iterated demo-slot observation (the sequence of
`rememberDemoUserAddress` calls a run of the app performs). -/
def observeDemoAddresses (addrs : List String) (st : SharedStorage) :
    SharedStorage :=
  addrs.foldl (fun s a => rememberDemoUserAddress a s) st

/-- Iterated recent-address pushes at the list level. -/
def pushRecentAll (addrs : List String) (l : List String) : List String :=
  addrs.foldl (fun acc a => pushRecent a acc) l

/-! ### Concrete inputs used by witnesses and counterexamples -/

/-- A parsed credential carrying `Expiration = 1000`. -/
def credWithExp1000 : CredentialObject :=
  { index := "CRED1000", Subject := "rSubject", Issuer := "rIssuer",
    CredentialType := "4343", Flags := .num 0, Expiration := some 1000 }

/-- A raw `account_objects` entry that parses to a matching credential. -/
def rawCredentialEntry : JSValue :=
  .obj [("LedgerEntryType", .str "Credential"), ("index", .str "CID1"),
        ("Subject", .str "rOwner"), ("Issuer", .str "rIssuer"),
        ("CredentialType", .str "4343"), ("Flags", .num 0)]

/-- The parsed form of `rawCredentialEntry`. -/
def parsedCredentialEntry : CredentialObject :=
  { index := "CID1", Subject := "rOwner", Issuer := "rIssuer",
    CredentialType := "4343", Flags := .num 0, Expiration := none }

/-- A validated-ledger snapshot in which only the subject owns objects. -/
def demoLedger : String → List JSValue :=
  fun account => if account = "rOwner" then [rawCredentialEntry] else []

/-- The resolver query for that snapshot. -/
def demoQuery : CredentialQuery :=
  { ownerAddress := "rOwner", issuerAddress := "rIssuer",
    credentialTypeHex := "4343" }

/-- An unaccepted credential (flag word 0). -/
def unacceptedCredential : CredentialObject :=
  { index := "CID1", Subject := "rUser", Issuer := "rIssuer",
    CredentialType := "4343", Flags := .num 0, Expiration := none }

/-- The same credential after acceptance (bit 0x00010000 set). -/
def acceptedCredential : CredentialObject :=
  { index := "CID1", Subject := "rUser", Issuer := "rIssuer",
    CredentialType := "4343", Flags := .num 65536, Expiration := none }

/-- A raw entry whose `Flags` field is a malformed (string) value. -/
def rawMalformedFlagsEntry : JSValue :=
  .obj [("LedgerEntryType", .str "Credential"), ("index", .str "CID2"),
        ("Subject", .str "rOwner"), ("Issuer", .str "rIssuer"),
        ("CredentialType", .str "4343"), ("Flags", .str "oops")]

/-- The parsed form of `rawMalformedFlagsEntry`. -/
def parsedMalformedFlagsEntry : CredentialObject :=
  { index := "CID2", Subject := "rOwner", Issuer := "rIssuer",
    CredentialType := "4343", Flags := .str "oops", Expiration := none }

/-- Environment observed by the slower, staler refresh evaluation: the
ledger still shows the credential unaccepted. -/
def staleEnv : RefreshEnv :=
  { issuer := "rIssuer", cerbCode := "CERBHEX",
    credential := some unacceptedCredential, lines := [], completedAt := 10 }

/-- Environment observed by the faster, newer refresh evaluation: the
credential is accepted and the trust line is authorized. -/
def freshEnv : RefreshEnv :=
  { issuer := "rIssuer", cerbCode := "CERBHEX",
    credential := some acceptedCredential,
    lines := [{ account := "rIssuer", currency := "CERBHEX",
                peer_authorized := some true }],
    completedAt := 5 }

/-- Hook state before the two racing refreshes start. -/
def raceInit : HookState :=
  { state := .connected_no_credential "rIssuer",
    issuerAddress := some "rIssuer", isRefreshing := false,
    lastUpdatedAt := none, error := none }

/-- A context whose shared scope holds a saved seed and no bookkeeping
entries, about to disconnect the wallet with address `rADDR`. -/
def disconnectCtxInput : ContextStorage :=
  { shared := { localSeed := some "sSAVED", recentAddresses := none,
                demoUser1 := none, demoUser2 := none },
    sessionSeed := some "sSAVED" }

/-- An empty shared storage, the initial state of the demo-slot registry. -/
def emptyShared : SharedStorage :=
  { localSeed := none, recentAddresses := none,
    demoUser1 := none, demoUser2 := none }

/-- A hook state holding a previously derived status, used by the C7
witness. -/
def steadyHook : HookState :=
  { state := .trustline_pending "rIssuer" "CID1",
    issuerAddress := some "rIssuer", isRefreshing := false,
    lastUpdatedAt := some 100, error := none }

/-! ### Theorems -/

/-- C5: the expiration predicate of the credential resolver.  A credential
object with no expiration field is valid at every reference time; one with
expiration `E` is valid exactly when the reference time is strictly less
than `E`; in particular, with `E = 1000` the object is valid at reference
time 999 and expired at 1000 and 1001. -/
theorem expiration_predicate_strict (now : Int) (c : CredentialObject) :
    (c.Expiration = none → isNonExpiredCredential now c = true) ∧
    (∀ e : Int, c.Expiration = some e →
      (isNonExpiredCredential now c = true ↔ now < e)) ∧
    (∀ c1000 : CredentialObject, c1000.Expiration = some 1000 →
      isNonExpiredCredential 999 c1000 = true ∧
      isNonExpiredCredential 1000 c1000 = false ∧
      isNonExpiredCredential 1001 c1000 = false) := by
  refine ⟨fun h => by simp [isNonExpiredCredential, h],
          fun e h => by simp [isNonExpiredCredential, h],
          fun c1000 h => ?_⟩
  refine ⟨?_, ?_, ?_⟩ <;> simp [isNonExpiredCredential, h]

/-- Witness for C5 at the concrete credential with expiration 1000. -/
theorem expiration_predicate_strict_witness :
    isNonExpiredCredential 999 credWithExp1000 = true ∧
    isNonExpiredCredential 1000 credWithExp1000 = false ∧
    isNonExpiredCredential 1001 credWithExp1000 = false :=
  (expiration_predicate_strict 0 credWithExp1000).2.2 credWithExp1000 rfl

/-- C1: for every ledger snapshot, query and clock, the resolver searches
the subject-owned objects first and returns a match found there; only when
that search finds nothing does it return the result of the issuer-owned
search; and anything it returns passes the exact issuer/subject/type and
non-expiration filter. -/
theorem find_credential_priority (objectsOf : String → List JSValue)
    (opts : CredentialQuery) (now : Int) :
    (∀ c, searchCredentials objectsOf opts now opts.ownerAddress = some c →
      findCredential objectsOf opts now = some c) ∧
    (searchCredentials objectsOf opts now opts.ownerAddress = none →
      findCredential objectsOf opts now =
        searchCredentials objectsOf opts now opts.issuerAddress) ∧
    (∀ c, findCredential objectsOf opts now = some c →
      credentialMatches opts now c = true) := by
  refine ⟨fun c h => by simp [findCredential, h],
          fun h => by simp [findCredential, h],
          fun c h => ?_⟩
  unfold findCredential at h
  cases hs : searchCredentials objectsOf opts now opts.ownerAddress with
  | some c0 =>
    rw [hs] at h
    cases h
    exact List.find?_some hs
  | none =>
    rw [hs] at h
    exact List.find?_some h

/-- Witness for C1 on a concrete snapshot where the subject owns the
matching credential. -/
theorem find_credential_priority_witness :
    findCredential demoLedger demoQuery 500 = some parsedCredentialEntry :=
  (find_credential_priority demoLedger demoQuery 500).1 parsedCredentialEntry rfl

/-- C2: the funnel status is a pure, deterministic function of the triple
(active identity, credential-lookup result, trustline-lookup result), and
its cases are exactly as specified: no identity means `disconnected`, no
credential means `connected_no_credential`, an unaccepted credential means
`credential_unaccepted` carrying the credential id, an accepted credential
without a matching trust line means `credential_accepted_no_trustline`, and
a matching line yields `authorized` or `trustline_pending` according to the
`peer_authorized` flag. -/
theorem funnel_derivation_cases (w issuer cerbCode : String)
    (lines : List TrustLine) :
    (refreshSuccess none issuer cerbCode none lines = .disconnected) ∧
    (refreshSuccess (some w) issuer cerbCode none lines =
      .connected_no_credential issuer) ∧
    (∀ c, isCredentialAccepted c.Flags = false →
      refreshSuccess (some w) issuer cerbCode (some c) lines =
        .credential_unaccepted issuer c.index) ∧
    (∀ c, isCredentialAccepted c.Flags = true →
      lines.find? (trustlineMatches issuer cerbCode) = none →
      refreshSuccess (some w) issuer cerbCode (some c) lines =
        .credential_accepted_no_trustline issuer c.index) ∧
    (∀ c l, isCredentialAccepted c.Flags = true →
      lines.find? (trustlineMatches issuer cerbCode) = some l →
      l.peer_authorized = some true →
      refreshSuccess (some w) issuer cerbCode (some c) lines =
        .authorized issuer c.index) ∧
    (∀ c l, isCredentialAccepted c.Flags = true →
      lines.find? (trustlineMatches issuer cerbCode) = some l →
      l.peer_authorized = some false →
      refreshSuccess (some w) issuer cerbCode (some c) lines =
        .trustline_pending issuer c.index) ∧
    (∀ (w1 w2 : Option String) (c1 c2 : Option CredentialObject)
        (l1 l2 : List TrustLine), w1 = w2 → c1 = c2 → l1 = l2 →
      refreshSuccess w1 issuer cerbCode c1 l1 =
        refreshSuccess w2 issuer cerbCode c2 l2) := by
  refine ⟨rfl, rfl, ?_, ?_, ?_, ?_, ?_⟩
  · intro c h; simp [refreshSuccess, deriveFunnel, h]
  · intro c h hline; simp [refreshSuccess, deriveFunnel, h, hline]
  · intro c l h hline hauth
    simp [refreshSuccess, deriveFunnel, h, hline, hauth]
  · intro c l h hline hauth
    simp [refreshSuccess, deriveFunnel, h, hline, hauth]
  · intro w1 w2 c1 c2 l1 l2 hw hc hl
    rw [hw, hc, hl]

/-- Witness for C2 at concrete lookup results: the unaccepted credential
yields `credential_unaccepted` with its id. -/
theorem funnel_derivation_cases_witness :
    refreshSuccess (some "rUser") "rIssuer" "CERBHEX"
        (some unacceptedCredential) [] =
      .credential_unaccepted "rIssuer" "CID1" :=
  (funnel_derivation_cases "rUser" "rIssuer" "CERBHEX" []).2.2.1
    unacceptedCredential rfl

/-- C7: when a query of a polling refresh fails while an active identity is
present (the failing path of `refresh`, modelled by `refreshOnFailure`),
the previously derived funnel state — which is never `disconnected` or
`loading` — is retained unchanged, the error is recorded alongside it, and
the state is neither reverted to `loading` nor to `disconnected`. -/
theorem refresh_failure_preserves_state (init : HookState)
    (issuerFetched : Option String) (errMsg : String)
    (h1 : init.state ≠ .disconnected) (h2 : init.state ≠ .loading) :
    (refreshOnFailure init issuerFetched errMsg).state = init.state ∧
    (refreshOnFailure init issuerFetched errMsg).error = some errMsg ∧
    (refreshOnFailure init issuerFetched errMsg).state ≠ .loading ∧
    (refreshOnFailure init issuerFetched errMsg).state ≠ .disconnected := by
  have hstate : (refreshOnFailure init issuerFetched errMsg).state = init.state := by
    cases issuerFetched <;> simp [refreshOnFailure, refreshSeg1, if_neg h1]
  have herr : (refreshOnFailure init issuerFetched errMsg).error = some errMsg := by
    cases issuerFetched <;> simp [refreshOnFailure]
  exact ⟨hstate, herr, hstate ▸ h2, hstate ▸ h1⟩

/-- Witness for C7: a failure after `trustline_pending` was derived keeps
that state and records the error. -/
theorem refresh_failure_preserves_state_witness :
    (refreshOnFailure steadyHook none "connect timeout").state =
      steadyHook.state ∧
    (refreshOnFailure steadyHook none "connect timeout").error =
      some "connect timeout" :=
  ⟨(refresh_failure_preserves_state steadyHook none "connect timeout"
      (by decide) (by decide)).1,
   (refresh_failure_preserves_state steadyHook none "connect timeout"
      (by decide) (by decide)).2.1⟩

/-- C3 counterexample: `refresh` has no per-identity in-flight guard.  At
the concrete initial state `raceInit`, starting a second refresh while the
first is in flight leaves both evaluations with pending work (they run
concurrently), and after the schedule in which the newer evaluation
(`freshEnv`, which derives `authorized`) completes first, the slower stale
evaluation (`staleEnv`) overwrites the state with `credential_unaccepted`:
the stale response wins, contradicting the claim. -/
theorem refresh_mutual_exclusion_counterexample :
    (runSegs [refreshSegs staleEnv, refreshSegs freshEnv] [0, 1]
        raceInit).1.all (fun segs => !segs.isEmpty) = true ∧
    deriveFunnel freshEnv.issuer freshEnv.cerbCode freshEnv.credential
        freshEnv.lines = .authorized "rIssuer" "CID1" ∧
    (runSegs [refreshSegs staleEnv, refreshSegs freshEnv] [0, 1, 1, 1, 0, 0]
        raceInit).2.state = .credential_unaccepted "rIssuer" "CID1" := by
  refine ⟨rfl, by decide, by decide⟩

/-- C3 amended: for every pair of refresh environments and every initial
hook state, a refresh invoked while one is already in flight for the same
identity is neither ignored nor coalesced — both evaluations remain pending
after both have started — and under the interleaving in which the second
evaluation completes first, the stored funnel state is the one derived by
the first (slower, staler) evaluation: the last response to apply wins. -/
theorem refresh_last_writer_wins (e1 e2 : RefreshEnv) (init : HookState) :
    (runSegs [refreshSegs e1, refreshSegs e2] [0, 1] init).1.all
        (fun segs => !segs.isEmpty) = true ∧
    (runSegs [refreshSegs e1, refreshSegs e2] [0, 1, 1, 1, 0, 0]
        init).2.state =
      deriveFunnel e1.issuer e1.cerbCode e1.credential e1.lines :=
  ⟨rfl, rfl⟩

/-- The recent-address bookkeeping write never touches the saved-seed
entry. -/
theorem rememberRecentAddress_localSeed (a : String) (st : SharedStorage) :
    (rememberRecentAddress a st).localSeed = st.localSeed := by
  unfold rememberRecentAddress
  split
  · rfl
  · dsimp only
    split <;> rfl

/-- The demo-slot bookkeeping write never touches the saved-seed entry. -/
theorem rememberDemoUserAddress_localSeed (a : String) (st : SharedStorage) :
    (rememberDemoUserAddress a st).localSeed = st.localSeed := by
  unfold rememberDemoUserAddress
  split
  · rfl
  · split
    · rfl
    · split
      · rfl
      · split <;> rfl

/-- C6 counterexample: at a concrete storage state whose shared scope holds
only the saved seed, disconnecting a wallet with a fresh address does write
shared-scope entries (the recent-address list and demo-user slot), so
`disconnect()` does not leave every shared-scope entry untouched. -/
theorem disconnect_writes_shared_counterexample :
    (disconnectWallet (some "rADDR") disconnectCtxInput).shared ≠
      disconnectCtxInput.shared := by
  decide

/-- C6 amended: `disconnect()` clears only the calling context's tab-scope
seed entry; it never writes to or clears the shared-scope saved-identity
entry (though it may update the shared-scope recent-address and demo-slot
bookkeeping entries); consequently another context's active identity —
resolved from its own tab-scope seed with fallback to the shared saved
seed — is never mutated by the disconnect. -/
theorem disconnect_amended (walletAddress : Option String)
    (ctx : ContextStorage) (otherSession : Option String) :
    (disconnectWallet walletAddress ctx).sessionSeed = none ∧
    (disconnectWallet walletAddress ctx).shared.localSeed =
      ctx.shared.localSeed ∧
    loadSeedFromStorage otherSession
        (disconnectWallet walletAddress ctx).shared.localSeed =
      loadSeedFromStorage otherSession ctx.shared.localSeed := by
  have hl : (disconnectWallet walletAddress ctx).shared.localSeed =
      ctx.shared.localSeed := by
    cases walletAddress with
    | none => rfl
    | some a =>
      by_cases he : a.isEmpty
      · simp [disconnectWallet, he]
      · simp [disconnectWallet, he, rememberDemoUserAddress_localSeed,
              rememberRecentAddress_localSeed]
  exact ⟨rfl, hl, by rw [hl]⟩

/-- C8: the two demo-user slots keep a sliding window of the two most
recent distinct addresses observed.  From an empty slot state the first
distinct address fills slot 1, the second fills slot 2; once both are
occupied, a new distinct address shifts slot 2 into slot 1 and takes
slot 2; an address already held in either slot changes nothing; and
observing A, B, C in order from the empty state leaves slot1 = B and
slot2 = C. -/
theorem demo_slots_sliding_window (st : SharedStorage) (a : String) :
    (a.isEmpty = false → st.demoUser1 = none → st.demoUser2 = none →
      rememberDemoUserAddress a st = { st with demoUser1 := some a }) ∧
    (∀ b, a.isEmpty = false → st.demoUser1 = some b → b.isEmpty = false →
      st.demoUser2 = none → a ≠ b →
      rememberDemoUserAddress a st = { st with demoUser2 := some a }) ∧
    (∀ b c, a.isEmpty = false → st.demoUser1 = some b → b.isEmpty = false →
      st.demoUser2 = some c → c.isEmpty = false → a ≠ b → a ≠ c →
      rememberDemoUserAddress a st =
        { st with demoUser1 := some c, demoUser2 := some a }) ∧
    ((st.demoUser1 = some a ∨ st.demoUser2 = some a) →
      rememberDemoUserAddress a st = st) ∧
    (observeDemoAddresses ["A", "B", "C"] emptyShared =
      { emptyShared with demoUser1 := some "B", demoUser2 := some "C" }) := by
  refine ⟨?_, ?_, ?_, ?_, by decide⟩
  · intro ha h1 h2
    simp [rememberDemoUserAddress, ha, h1, h2, isFalsyStr]
  · intro b ha h1 hb h2 hne
    simp [rememberDemoUserAddress, ha, h1, hb, h2, isFalsyStr, hne,
          Ne.symm hne]
  · intro b c ha h1 hb h2 hc hab hac
    simp [rememberDemoUserAddress, ha, h1, hb, h2, hc, isFalsyStr, hab, hac,
          Ne.symm hab, Ne.symm hac]
  · intro h
    by_cases ha : a.isEmpty
    · simp [rememberDemoUserAddress, ha]
    · rcases h with h | h <;>
        simp [rememberDemoUserAddress, ha, h]

/-- Witness for C8: the rotation step at concrete slot contents. -/
theorem demo_slots_sliding_window_witness :
    rememberDemoUserAddress "rC"
        { emptyShared with demoUser1 := some "rA", demoUser2 := some "rB" } =
      { emptyShared with demoUser1 := some "rB", demoUser2 := some "rC" } :=
  (demo_slots_sliding_window
      { emptyShared with demoUser1 := some "rA", demoUser2 := some "rB" }
      "rC").2.2.1 "rA" "rB" rfl rfl rfl rfl rfl (by decide) (by decide)

/-- One push keeps the recent list duplicate-free and at most 5 long. -/
theorem pushRecent_nodup_bounded (a : String) (l : List String)
    (h1 : l.Nodup) (h2 : l.length ≤ 5) :
    (pushRecent a l).Nodup ∧ (pushRecent a l).length ≤ 5 := by
  unfold pushRecent
  split
  · exact ⟨h1, h2⟩
  · split
    · exact ⟨h1, h2⟩
    · constructor
      · refine List.Nodup.sublist (List.take_sublist _ _) ?_
        refine List.nodup_cons.mpr ⟨?_, h1.filter _⟩
        intro hmem
        have hx := (List.mem_filter.mp hmem).2
        simp at hx
      · rw [List.length_take]
        exact Nat.min_le_left 5 _

/-- The invariant propagates along any sequence of pushes. -/
theorem pushRecentAll_nodup_bounded (addrs : List String) :
    ∀ l : List String, l.Nodup → l.length ≤ 5 →
      (pushRecentAll addrs l).Nodup ∧ (pushRecentAll addrs l).length ≤ 5 := by
  induction addrs with
  | nil => exact fun l h1 h2 => ⟨h1, h2⟩
  | cons a rest ih =>
    intro l h1 h2
    have h := pushRecent_nodup_bounded a l h1 h2
    exact ih (pushRecent a l) h.1 h.2

/-- Every element the load step keeps is a non-empty string. -/
theorem loadRecentAddresses_nonempty (st : SharedStorage) :
    ∀ x ∈ loadRecentAddresses st, x.isEmpty = false := by
  intro x hx
  unfold loadRecentAddresses at hx
  cases h : st.recentAddresses with
  | none => rw [h] at hx; cases hx
  | some l =>
    rw [h] at hx
    have hcond := (List.mem_filter.mp hx).2
    simpa using hcond

/-- Storing then reloading the recent list gives exactly the list-level
push: the save/load round trip loses nothing. -/
theorem remember_recent_load (a : String) (st : SharedStorage) :
    loadRecentAddresses (rememberRecentAddress a st) =
      pushRecent a (loadRecentAddresses st) := by
  by_cases ha : a.isEmpty = true
  · simp [rememberRecentAddress, pushRecent, ha]
  · by_cases hh : ((loadRecentAddresses st).head? == some a) = true
    · simp [rememberRecentAddress, pushRecent, ha, hh]
    · have hb : ((loadRecentAddresses st).head? == some a) = false :=
        Bool.not_eq_true _ ▸ hh
      have ha2 : a.isEmpty = false := Bool.not_eq_true _ ▸ ha
      simp only [rememberRecentAddress, pushRecent, ha2, hb,
        Bool.false_eq_true, if_false]
      unfold loadRecentAddresses
      refine List.filter_eq_self.mpr ?_
      intro x hx
      have hx2 := List.mem_of_mem_take hx
      rcases List.mem_cons.mp hx2 with h | h
      · subst h; simp [ha2]
      · have hxl := (List.mem_filter.mp h).1
        have hne := loadRecentAddresses_nonempty st x hxl
        simp [hne]

/-- C9: iterated from the empty list, the recent-address list is always
duplicate-free and at most 5 long; pushing an address already present
moves it to the front without changing the length or the set of entries;
the save/load round trip of the storage layer performs exactly this
transformation; and pushing A, B, C, D, E and then A again leaves the same
five addresses with A at the front. -/
theorem recent_address_list_props :
    (∀ addrs : List String,
      (pushRecentAll addrs []).Nodup ∧ (pushRecentAll addrs []).length ≤ 5) ∧
    (∀ (a : String) (l : List String), a.isEmpty = false → l.Nodup →
      l.length ≤ 5 → a ∈ l →
      (pushRecent a l).head? = some a ∧
      (pushRecent a l).length = l.length ∧
      (pushRecent a l).Nodup ∧ (∀ x, x ∈ pushRecent a l ↔ x ∈ l)) ∧
    (∀ (a : String) (st : SharedStorage),
      loadRecentAddresses (rememberRecentAddress a st) =
        pushRecent a (loadRecentAddresses st)) ∧
    (pushRecentAll ["A", "B", "C", "D", "E", "A"] [] =
      ["A", "E", "D", "C", "B"]) := by
  refine ⟨fun addrs => pushRecentAll_nodup_bounded addrs [] (by simp) (by simp),
          ?_, remember_recent_load, by decide⟩
  intro a l ha h1 h2 hmem
  have hperm : List.Perm l (a :: l.erase a) := List.perm_cons_erase hmem
  have hfilter : l.filter (· != a) = l.erase a := (h1.erase_eq_filter a).symm
  by_cases hh : l.head? = some a
  · have heq : pushRecent a l = l := by
      simp [pushRecent, ha, hh]
    rw [heq]
    exact ⟨hh, rfl, h1, fun x => Iff.rfl⟩
  · have hlen : (a :: l.erase a).length = l.length := hperm.length_eq.symm
    have heq : pushRecent a l = a :: l.erase a := by
      unfold pushRecent
      rw [if_neg (by simp [ha]), if_neg (by simp [hh]), hfilter]
      exact List.take_of_length_le (by rw [hlen]; exact h2)
    rw [heq]
    exact ⟨rfl, hlen, hperm.nodup h1, fun x => (hperm.mem_iff).symm⟩

/-- Witness for C9: pushing an address already present in a concrete
3-entry list moves it to the front and keeps the length. -/
theorem recent_address_list_props_witness :
    (pushRecent "A" ["B", "A", "C"]).head? = some "A" ∧
    (pushRecent "A" ["B", "A", "C"]).length = 3 :=
  ⟨(recent_address_list_props.2.1 "A" ["B", "A", "C"] rfl (by decide)
      (by decide) (by decide)).1,
   (recent_address_list_props.2.1 "A" ["B", "A", "C"] rfl (by decide)
      (by decide) (by decide)).2.1⟩

/-- Callers that find an attempt already in flight neither change the
manager state nor start a new attempt: they all await the recorded one. -/
theorem runCallers_inflight (n : Nat) (id : Nat) :
    ∀ st : MgrState, st.connected = false → st.inFlight = some id →
      runCallers n st = (st, List.replicate n (.attempt id)) := by
  induction n with
  | zero => intro st _ _; rfl
  | succ k ih =>
    intro st h1 h2
    have hp : ensurePrologue st = (st, .attempt id) := by
      simp [ensurePrologue, h1, h2]
    simp [runCallers, hp, ih st h1 h2, List.replicate_succ]

/-- C4: when N ≥ 1 callers invoke `ensureXrplConnected` while the shared
connection is down and no attempt is in flight, exactly one underlying
connect is started; every caller awaits that same attempt, so each resolves
with its outcome (success or the propagated failure); and a failed attempt
clears the in-flight marker without connecting, so that the next caller
starts a fresh attempt. -/
theorem ensure_connected_dedup (st : MgrState) (n : Nat)
    (hconn : st.connected = false) (hflight : st.inFlight = none)
    (hn : 1 ≤ n) :
    (runCallers n st).1.attemptsStarted = st.attemptsStarted + 1 ∧
    (runCallers n st).2.length = n ∧
    (∀ t ∈ (runCallers n st).2, t = .attempt st.attemptsStarted) ∧
    (∀ attemptResult : Nat → Bool,
      (runCallers n st).2.map (waiterOutcome attemptResult) =
        List.replicate n (attemptResult st.attemptsStarted)) ∧
    (completeAttempt false (runCallers n st).1).inFlight = none ∧
    (completeAttempt false (runCallers n st).1).connected = false ∧
    (ensurePrologue (completeAttempt false (runCallers n st).1)).2 =
      .attempt (st.attemptsStarted + 1) := by
  obtain ⟨k, rfl⟩ : ∃ k, n = k + 1 :=
    ⟨n - 1, (Nat.succ_pred_eq_of_pos hn).symm⟩
  have hp : ensurePrologue st =
      ({ st with inFlight := some st.attemptsStarted,
                 attemptsStarted := st.attemptsStarted + 1 },
       .attempt st.attemptsStarted) := by
    simp [ensurePrologue, hconn, hflight]
  have hrest := runCallers_inflight k st.attemptsStarted
    { st with inFlight := some st.attemptsStarted,
              attemptsStarted := st.attemptsStarted + 1 } hconn rfl
  have hrun : runCallers (k + 1) st =
      ({ st with inFlight := some st.attemptsStarted,
                 attemptsStarted := st.attemptsStarted + 1 },
       List.replicate (k + 1) (.attempt st.attemptsStarted)) := by
    simp [runCallers, hp, hrest, List.replicate_succ]
  rw [hrun]
  refine ⟨rfl, by simp, ?_, ?_, rfl, hconn, ?_⟩
  · intro t ht
    exact List.eq_of_mem_replicate ht
  · intro attemptResult
    simp [waiterOutcome]
  · simp [completeAttempt, ensurePrologue, hconn]

/-- Witness for C4 at the spec's test scenario: 10 concurrent callers from
the fresh disconnected state start exactly one attempt and all await it. -/
theorem ensure_connected_dedup_witness :
    (runCallers 10 ⟨false, none, 0⟩).1.attemptsStarted = 1 ∧
    (runCallers 10 ⟨false, none, 0⟩).2.length = 10 ∧
    (completeAttempt false (runCallers 10 ⟨false, none, 0⟩).1).inFlight =
      none :=
  ⟨(ensure_connected_dedup ⟨false, none, 0⟩ 10 rfl rfl (by decide)).1,
   (ensure_connected_dedup ⟨false, none, 0⟩ 10 rfl rfl (by decide)).2.1,
   (ensure_connected_dedup ⟨false, none, 0⟩ 10 rfl rfl (by decide)).2.2.2.2.1⟩

/-- Bitwise difference of a power of two: keeping from `2 ^ i` the bits not
in `m` yields `0` or `2 ^ i` according to bit `i` of `m`. -/
theorem ldiff_two_pow (m i : Nat) :
    Nat.ldiff (2 ^ i) m = if m.testBit i then 0 else 2 ^ i := by
  refine Nat.eq_of_testBit_eq fun k => ?_
  rw [Nat.testBit_ldiff]
  by_cases hk : i = k
  · subst hk
    by_cases hb : m.testBit i <;> simp [hb, Nat.testBit_two_pow_self]
  · have hz : (2 ^ i).testBit k = false := Nat.testBit_two_pow_of_ne hk
    by_cases hb : m.testBit i <;> simp [hb, hz, Nat.zero_testBit]

/-- The accepted-flag mask test is exactly a test of bit 16, for every
integer flag word (two's-complement semantics for negative words). -/
theorem land_mask_eq_testBit (n : Int) :
    (Int.land n LSF_ACCEPTED == 0) = !(Int.testBit n 16) := by
  cases n with
  | ofNat m =>
    have e1 : Int.land (Int.ofNat m) LSF_ACCEPTED =
        Int.ofNat (m &&& 2 ^ 16) := rfl
    rw [e1, Nat.and_two_pow]
    cases hb : m.testBit 16 <;> simp [Int.testBit, hb]
  | negSucc m =>
    have e1 : Int.land (Int.negSucc m) LSF_ACCEPTED =
        Int.ofNat (Nat.ldiff (2 ^ 16) m) := rfl
    rw [e1, ldiff_two_pow]
    cases hb : m.testBit 16 <;> simp [Int.testBit, hb]

/-- C10: the credential-accepted predicate is total over arbitrary runtime
input: every non-numeric flags value (absent, null, boolean, string, object,
array) yields `false`; a numeric value yields `true` exactly when bit
0x00010000 of the flag word is set; `parseCredentialObject` passes the
`Flags` field through unvalidated; and a structurally valid credential
whose `Flags` field is non-numeric is classified by the funnel as
`credential_unaccepted` rather than causing a failure. -/
theorem accepted_flag_total (r : List (String × JSValue))
    (c : CredentialObject) (issuer cerbCode : String)
    (lines : List TrustLine) :
    (∀ v : JSValue, (∀ n : Int, v ≠ .num n) →
      isCredentialAccepted v = false) ∧
    (∀ n : Int, isCredentialAccepted (.num n) = Int.testBit n 16) ∧
    (parseCredentialObject (.obj r) = some c →
      c.Flags = getField r "Flags") ∧
    (parseCredentialObject (.obj r) = some c →
      (∀ n : Int, c.Flags ≠ .num n) →
      deriveFunnel issuer cerbCode (some c) lines =
        .credential_unaccepted issuer c.index) := by
  have hnonnum : ∀ v : JSValue, (∀ n : Int, v ≠ .num n) →
      isCredentialAccepted v = false := by
    intro v hv
    cases v with
    | num n => exact absurd rfl (hv n)
    | _ => rfl
  refine ⟨hnonnum, ?_, ?_, ?_⟩
  · intro n
    show (!(Int.land n LSF_ACCEPTED == 0)) = Int.testBit n 16
    rw [land_mask_eq_testBit, Bool.not_not]
  · intro h
    simp only [parseCredentialObject] at h
    split at h <;> try exact Option.noConfusion h
    split at h <;> try exact Option.noConfusion h
    split at h <;> try exact Option.noConfusion h
    injection h with h
    subst h
    rfl
  · intro hparse hflags
    have hacc := hnonnum c.Flags hflags
    simp [deriveFunnel, hacc]

/-- Witness for C10: a credential parsed from a raw entry with a string
`Flags` field is classified as unaccepted. -/
theorem accepted_flag_total_witness :
    deriveFunnel "rIssuer" "CERBHEX" (some parsedMalformedFlagsEntry) [] =
      .credential_unaccepted "rIssuer" "CID2" :=
  (accepted_flag_total
      [("LedgerEntryType", .str "Credential"), ("index", .str "CID2"),
       ("Subject", .str "rOwner"), ("Issuer", .str "rIssuer"),
       ("CredentialType", .str "4343"), ("Flags", .str "oops")]
      parsedMalformedFlagsEntry "rIssuer" "CERBHEX" []).2.2.2 rfl
    (fun n h => by cases h)

end Fintech
